import Mathlib

/-!
Verification of the jp2forge_web conversion pipeline.

Shallow embedding of the Python sources under `converter/`:
`bnf_validator.py`, `jp2forge_adapter.py`, `tasks.py` and the retry view of
`views.py`.  Python dictionaries are modelled as insertion-ordered association
lists over a universal value type `PyVal`; Python numbers (int and float) are
modelled as rationals; a raised exception is modelled as the `Except` error
case carrying the exception class and message.
-/

set_option maxHeartbeats 1000000

/-- A Python value as it appears in the dictionaries handled by the app:
strings, numbers (int/float unified as `Rat`), booleans, `None`, lists and
(insertion-ordered) dictionaries. -/
inductive PyVal where
  | str (s : String)
  | rat (q : Rat)
  | bool (b : Bool)
  | none
  | list (xs : List PyVal)
  | dict (kvs : List (String × PyVal))

/-- A raised Python exception, carrying its class and its message
(`str(e)`). -/
inductive PyErr where
  | fileNotFound (msg : String)
  | valueError (msg : String)
  | typeError (msg : String)
  | other (msg : String)
deriving DecidableEq

/-- The `str(e)` of a modelled exception. -/
def errMsg : PyErr → String
  | .fileNotFound m => m
  | .valueError m => m
  | .typeError m => m
  | .other m => m

/-- Dictionary lookup (`d[k]` / `k in d` / `d.get(k)`). -/
def lookup : List (String × PyVal) → String → Option PyVal
  | [], _ => Option.none
  | (k1, v1) :: rest, k => if k1 = k then some v1 else lookup rest k

/-- Dictionary store `d[k] = v`: replaces the value in place when the key is
present (Python dicts keep the original insertion position), appends
otherwise. -/
def setk : List (String × PyVal) → String → PyVal → List (String × PyVal)
  | [], k, v => [(k, v)]
  | (k1, v1) :: rest, k, v =>
    if k1 = k then (k, v) :: rest else (k1, v1) :: setk rest k v

/-- The `k in d`. -/
def hasKey (d : List (String × PyVal)) (k : String) : Bool :=
  (lookup d k).isSome

/-- Python truthiness of a value. -/
def pyTruthy : PyVal → Bool
  | .str s => s ≠ ""
  | .rat q => q ≠ 0
  | .bool b => b
  | .none => false
  | .list xs => !xs.isEmpty
  | .dict kvs => !kvs.isEmpty

@[simp] theorem lookup_nil (k : String) : lookup [] k = Option.none := rfl

@[simp] theorem lookup_cons (k1 k : String) (v1 : PyVal) (rest : List (String × PyVal)) :
    lookup ((k1, v1) :: rest) k = if k1 = k then some v1 else lookup rest k := rfl

@[simp] theorem lookup_setk_self (d : List (String × PyVal)) (k : String) (v : PyVal) :
    lookup (setk d k v) k = some v := by
  induction d with
  | nil => simp [setk]
  | cons hd tl ih =>
    obtain ⟨k1, v1⟩ := hd
    by_cases h : k1 = k <;> simp [setk, h, ih]

theorem lookup_setk_ne (d : List (String × PyVal)) (k k2 : String) (v : PyVal)
    (h : k2 ≠ k) : lookup (setk d k v) k2 = lookup d k2 := by
  induction d with
  | nil => simp [setk, Ne.symm h]
  | cons hd tl ih =>
    obtain ⟨k1, v1⟩ := hd
    by_cases h1 : k1 = k
    · subst h1
      simp [setk, Ne.symm h]
    · simp [setk, h1, ih]

theorem setk_ne_nil (d : List (String × PyVal)) (k : String) (v : PyVal) :
    setk d k v ≠ [] := by
  cases d with
  | nil => simp [setk]
  | cons hd tl =>
    obtain ⟨k1, v1⟩ := hd
    by_cases h : k1 = k <;> simp [setk, h]

theorem lookup_setk (d : List (String × PyVal)) (k k2 : String) (v : PyVal) :
    lookup (setk d k v) k2 = if k = k2 then some v else lookup d k2 := by
  by_cases h : k = k2
  · subst h
    simp
  · rw [if_neg h, lookup_setk_ne _ _ _ _ (Ne.symm h)]

/-! ## bnf_validator.py -/

/-- ASCII lowering of one character, as `str.lower` acts on the ASCII
document-type names used by the app. -/
def lowerChar (c : Char) : Char :=
  if 65 ≤ c.toNat ∧ c.toNat ≤ 90 then Char.ofNat (c.toNat + 32) else c

/-- The `s.lower()` for the ASCII strings handled by the validator. -/
def strLower (s : String) : String := ⟨s.data.map lowerChar⟩

/-- The `BnFStandards.COMPRESSION_RATIOS`. -/
def COMPRESSION_RATIOS : List (String × Rat) :=
  [("photograph", 4.0), ("heritage_document", 4.0), ("color", 6.0), ("grayscale", 16.0)]

/-- The `BnFStandards.DEFAULT_TOLERANCE`. -/
def DEFAULT_TOLERANCE : Rat := 0.05

/-- The `BnFStandards.REQUIRED_RESOLUTION_LEVELS`. -/
def REQUIRED_RESOLUTION_LEVELS : Nat := 10

/-- The `BnFStandards.REQUIRED_PARAMETERS`, in dictionary insertion order. -/
def REQUIRED_PARAMETERS : List (String × PyVal) :=
  [("tile_size", .str "1024,1024"),
   ("code_block_size", .str "64,64"),
   ("progression_order", .str "RPCL"),
   ("quality_layers", .rat 10),
   ("include_markers", .list [.str "SOP", .str "EPH", .str "PLT"])]

/-- Lookup in the ratio table. -/
def ratTableLookup : List (String × Rat) → String → Option Rat
  | [], _ => Option.none
  | (k1, v1) :: rest, k => if k1 = k then some v1 else ratTableLookup rest k

/-- The `BnFValidator.get_target_compression_ratio`: lowercases the document type,
raises `ValueError` when it is not a key of `COMPRESSION_RATIOS`, returns the
table entry otherwise. -/
def targetRatioOf (document_type : String) : Except PyErr Rat :=
  let dt := strLower document_type
  match ratTableLookup COMPRESSION_RATIOS dt with
  | Option.none => .error (.valueError ("Unknown document type: " ++ dt))
  | some r => .ok r

/-- The `BnFValidator.is_compression_ratio_compliant`: compliant when the measured
ratio lies between `target * (1 - tolerance)` and `target * (1 + tolerance)`
(chained comparison); returns the pair `(is_compliant, target_ratio)`. -/
def is_compression_ratio_compliant (tolerance : Rat) (actualQ : Rat)
    (document_type : String) : Except PyErr (Bool × Rat) :=
  match targetRatioOf document_type with
  | .error e => .error e
  | .ok target =>
    let min_acceptable := target * (1 - tolerance)
    let max_acceptable := target * (1 + tolerance)
    .ok (decide (min_acceptable ≤ actualQ) && decide (actualQ ≤ max_acceptable), target)

/-- The `BnFValidator.enforce_bnf_parameters`: copies the configuration, forces the
compliance flag, the resolution-level count, `REQUIRED_PARAMETERS` and the
document type's target ratio, and mirrors a user-supplied `quality` under
`original_quality`. -/
def enforce_bnf_parameters (config : List (String × PyVal)) (document_type : String) :
    Except PyErr (List (String × PyVal)) :=
  let ec := config
  let ec := setk ec "bnf_compliant" (.bool true)
  let ec := setk ec "resolution_levels" (.rat REQUIRED_RESOLUTION_LEVELS)
  -- the loop over REQUIRED_PARAMETERS, in dictionary insertion order
  let ec := setk ec "tile_size" (.str "1024,1024")
  let ec := setk ec "code_block_size" (.str "64,64")
  let ec := setk ec "progression_order" (.str "RPCL")
  let ec := setk ec "quality_layers" (.rat 10)
  let ec := setk ec "include_markers" (.list [.str "SOP", .str "EPH", .str "PLT"])
  match targetRatioOf document_type with
  | .error e => .error e
  | .ok target =>
    let ec := setk ec "compression_ratio" (.rat target)
    let ec :=
      match lookup ec "quality" with
      | some q => setk ec "original_quality" q
      | Option.none => ec
    .ok ec

theorem toNat_ofNat_small (n : Nat) (h : n < 55296) : (Char.ofNat n).toNat = n := by
  have hv : n.isValidChar := Or.inl h
  simp [Char.ofNat, hv, Char.ofNatAux, Char.toNat, UInt32.toNat, BitVec.toNat_ofNatLt]

theorem lowerChar_idem (c : Char) : lowerChar (lowerChar c) = lowerChar c := by
  unfold lowerChar
  by_cases h : 65 ≤ c.toNat ∧ c.toNat ≤ 90
  · simp only [if_pos h]
    have ht : (Char.ofNat (c.toNat + 32)).toNat = c.toNat + 32 :=
      toNat_ofNat_small _ (by omega)
    rw [if_neg]
    rw [ht]
    omega
  · simp only [if_neg h]

theorem strLower_idem (s : String) : strLower (strLower s) = strLower s := by
  unfold strLower
  congr 1
  rw [List.map_map]
  exact List.map_congr_left fun c _ => lowerChar_idem c


/-- C10: `get_target_compression_ratio` is case-insensitive: on every string it
agrees with its value on the lowercased string (in particular on "COLOR" and
"color"), and it raises `ValueError` exactly when the lowercased string is not
a key of the compression-ratio table. -/
theorem target_ratio_case_insensitive (d : String) :
    targetRatioOf d = targetRatioOf (strLower d) ∧
    ((∃ m, targetRatioOf d = .error (.valueError m)) ↔
      ratTableLookup COMPRESSION_RATIOS (strLower d) = Option.none) ∧
    targetRatioOf "COLOR" = targetRatioOf "color" := by
  refine ⟨?_, ?_, rfl⟩
  · simp [targetRatioOf, strLower_idem]
  · simp only [targetRatioOf]
    cases htl : ratTableLookup COMPRESSION_RATIOS (strLower d) with
    | none => simp [htl]
    | some r => simp [htl]

/-- C6: the compliance check accepts exactly the ratios in the closed interval
`[target * (1 - 0.05), target * (1 + 0.05)]`, with the fixed target table
photograph 4.0, heritage_document 4.0, color 6.0, grayscale 16.0; for category
`color` the ratios 5.7 and 6.3 are compliant while 5.5 and 6.5 are not. -/
theorem compliance_tolerance_interval (q : Rat) :
    is_compression_ratio_compliant DEFAULT_TOLERANCE q "photograph" =
      .ok (decide ((4.0 : Rat) * (1 - 0.05) ≤ q ∧ q ≤ 4.0 * (1 + 0.05)), 4.0) ∧
    is_compression_ratio_compliant DEFAULT_TOLERANCE q "heritage_document" =
      .ok (decide ((4.0 : Rat) * (1 - 0.05) ≤ q ∧ q ≤ 4.0 * (1 + 0.05)), 4.0) ∧
    is_compression_ratio_compliant DEFAULT_TOLERANCE q "color" =
      .ok (decide ((6.0 : Rat) * (1 - 0.05) ≤ q ∧ q ≤ 6.0 * (1 + 0.05)), 6.0) ∧
    is_compression_ratio_compliant DEFAULT_TOLERANCE q "grayscale" =
      .ok (decide ((16.0 : Rat) * (1 - 0.05) ≤ q ∧ q ≤ 16.0 * (1 + 0.05)), 16.0) ∧
    is_compression_ratio_compliant DEFAULT_TOLERANCE 5.7 "color" = .ok (true, 6.0) ∧
    is_compression_ratio_compliant DEFAULT_TOLERANCE 6.3 "color" = .ok (true, 6.0) ∧
    is_compression_ratio_compliant DEFAULT_TOLERANCE 5.5 "color" = .ok (false, 6.0) ∧
    is_compression_ratio_compliant DEFAULT_TOLERANCE 6.5 "color" = .ok (false, 6.0) := by
  have h1 : targetRatioOf "photograph" = .ok 4.0 := rfl
  have h2 : targetRatioOf "heritage_document" = .ok 4.0 := rfl
  have h3 : targetRatioOf "color" = .ok 6.0 := rfl
  have h4 : targetRatioOf "grayscale" = .ok 16.0 := rfl
  refine ⟨?_, ?_, ?_, ?_,
    by simp only [is_compression_ratio_compliant, h3]; norm_num [DEFAULT_TOLERANCE],
    by simp only [is_compression_ratio_compliant, h3]; norm_num [DEFAULT_TOLERANCE],
    by simp only [is_compression_ratio_compliant, h3]; norm_num [DEFAULT_TOLERANCE],
    by simp only [is_compression_ratio_compliant, h3]; norm_num [DEFAULT_TOLERANCE]⟩ <;>
    simp [is_compression_ratio_compliant, h1, h2, h3, h4, DEFAULT_TOLERANCE]

/-- The keys that `enforce_bnf_parameters` writes. -/
def enforcedKeys : List String :=
  ["bnf_compliant", "resolution_levels", "tile_size", "code_block_size",
   "progression_order", "quality_layers", "include_markers", "compression_ratio",
   "original_quality"]

/-- The dictionary state produced by the unconditional writes of
`enforce_bnf_parameters` (compliance flag, resolution levels, the
REQUIRED_PARAMETERS loop, and the target ratio). -/
def bnfEnforcedChain (config : List (String × PyVal)) (target : Rat) : List (String × PyVal) :=
  setk (setk (setk (setk (setk (setk (setk
    (setk config "bnf_compliant" (.bool true)) "resolution_levels" (.rat REQUIRED_RESOLUTION_LEVELS))
    "tile_size" (.str "1024,1024")) "code_block_size" (.str "64,64"))
    "progression_order" (.str "RPCL")) "quality_layers" (.rat 10))
    "include_markers" (.list [.str "SOP", .str "EPH", .str "PLT"]))
    "compression_ratio" (.rat target)

theorem enforce_eq (config : List (String × PyVal)) (document_type : String) (target : Rat)
    (h : targetRatioOf document_type = .ok target) :
    enforce_bnf_parameters config document_type =
      .ok (match lookup config "quality" with
        | some q => setk (bnfEnforcedChain config target) "original_quality" q
        | Option.none => bnfEnforcedChain config target) := by
  have hfix : lookup (bnfEnforcedChain config target) "quality" = lookup config "quality" := by
    simp [bnfEnforcedChain, lookup_setk]
  simp only [enforce_bnf_parameters, h]
  show Except.ok (match lookup (bnfEnforcedChain config target) "quality" with
    | some q => setk (bnfEnforcedChain config target) "original_quality" q
    | Option.none => bnfEnforcedChain config target) = _
  rw [hfix]

/-- C7: on a known category, `enforce_bnf_parameters` returns a copy of the
input in which the compliance flag is true, the resolution-level count is 10,
the fixed structural parameters and the category target ratio are set, any
user-supplied quality is mirrored under `original_quality`, and every other
key keeps its input value. -/
theorem enforce_bnf_parameters_spec (config : List (String × PyVal)) (document_type : String)
    (target : Rat) (h : targetRatioOf document_type = .ok target) :
    ∃ ec, enforce_bnf_parameters config document_type = .ok ec ∧
      lookup ec "bnf_compliant" = some (.bool true) ∧
      lookup ec "resolution_levels" = some (.rat 10) ∧
      lookup ec "tile_size" = some (.str "1024,1024") ∧
      lookup ec "code_block_size" = some (.str "64,64") ∧
      lookup ec "progression_order" = some (.str "RPCL") ∧
      lookup ec "quality_layers" = some (.rat 10) ∧
      lookup ec "include_markers" = some (.list [.str "SOP", .str "EPH", .str "PLT"]) ∧
      lookup ec "compression_ratio" = some (.rat target) ∧
      (∀ q, lookup config "quality" = some q → lookup ec "original_quality" = some q) ∧
      (∀ k, k ∉ enforcedKeys → lookup ec k = lookup config k) := by
  rw [enforce_eq config document_type target h]
  cases hcq : lookup config "quality" with
  | none =>
    refine ⟨_, rfl, ?_, ?_, ?_, ?_, ?_, ?_, ?_, ?_, ?_, ?_⟩
    case _ => simp [bnfEnforcedChain, lookup_setk]
    case _ => simp [bnfEnforcedChain, lookup_setk, REQUIRED_RESOLUTION_LEVELS]
    case _ => simp [bnfEnforcedChain, lookup_setk]
    case _ => simp [bnfEnforcedChain, lookup_setk]
    case _ => simp [bnfEnforcedChain, lookup_setk]
    case _ => simp [bnfEnforcedChain, lookup_setk]
    case _ => simp [bnfEnforcedChain, lookup_setk]
    case _ => simp [bnfEnforcedChain, lookup_setk]
    case _ =>
      intro q2 hq2
      simp at hq2
    case _ =>
      intro k hk
      simp only [enforcedKeys, List.mem_cons, List.not_mem_nil, or_false, not_or] at hk
      obtain ⟨hk1, hk2, hk3, hk4, hk5, hk6, hk7, hk8, hk9⟩ := hk
      simp [bnfEnforcedChain, lookup_setk, Ne.symm hk1, Ne.symm hk2, Ne.symm hk3,
        Ne.symm hk4, Ne.symm hk5, Ne.symm hk6, Ne.symm hk7, Ne.symm hk8, Ne.symm hk9]
  | some q =>
    refine ⟨_, rfl, ?_, ?_, ?_, ?_, ?_, ?_, ?_, ?_, ?_, ?_⟩
    case _ => simp [bnfEnforcedChain, lookup_setk]
    case _ => simp [bnfEnforcedChain, lookup_setk, REQUIRED_RESOLUTION_LEVELS]
    case _ => simp [bnfEnforcedChain, lookup_setk]
    case _ => simp [bnfEnforcedChain, lookup_setk]
    case _ => simp [bnfEnforcedChain, lookup_setk]
    case _ => simp [bnfEnforcedChain, lookup_setk]
    case _ => simp [bnfEnforcedChain, lookup_setk]
    case _ => simp [bnfEnforcedChain, lookup_setk]
    case _ =>
      intro q2 hq2
      injection hq2 with hqq
      subst hqq
      simp [lookup_setk]
    case _ =>
      intro k hk
      simp only [enforcedKeys, List.mem_cons, List.not_mem_nil, or_false, not_or] at hk
      obtain ⟨hk1, hk2, hk3, hk4, hk5, hk6, hk7, hk8, hk9⟩ := hk
      simp [bnfEnforcedChain, lookup_setk, Ne.symm hk1, Ne.symm hk2, Ne.symm hk3,
        Ne.symm hk4, Ne.symm hk5, Ne.symm hk6, Ne.symm hk7, Ne.symm hk8, Ne.symm hk9]

/-- Witness for C7 at a concrete configuration and category. -/
theorem enforce_bnf_parameters_spec_witness :
    ∃ ec, enforce_bnf_parameters [("quality", PyVal.rat 40)] "color" = .ok ec ∧
      lookup ec "bnf_compliant" = some (.bool true) ∧
      lookup ec "resolution_levels" = some (.rat 10) ∧
      lookup ec "tile_size" = some (.str "1024,1024") ∧
      lookup ec "code_block_size" = some (.str "64,64") ∧
      lookup ec "progression_order" = some (.str "RPCL") ∧
      lookup ec "quality_layers" = some (.rat 10) ∧
      lookup ec "include_markers" = some (.list [.str "SOP", .str "EPH", .str "PLT"]) ∧
      lookup ec "compression_ratio" = some (.rat 6.0) ∧
      (∀ q, lookup [("quality", PyVal.rat 40)] "quality" = some q →
        lookup ec "original_quality" = some q) ∧
      (∀ k, k ∉ enforcedKeys → lookup ec k = lookup [("quality", PyVal.rat 40)] k) :=
  enforce_bnf_parameters_spec [("quality", PyVal.rat 40)] "color" 6.0 rfl

/-! ## jp2forge_adapter.py -/

/-- Round a rational to the nearest integer, ties to even — the rounding used
by CPython float formatting on the exactly representable values handled
here. -/
def roundHalfEven (q : Rat) : Int :=
  let fl := q.floor
  let frac := q - fl
  if frac < 1/2 then fl
  else if frac > 1/2 then fl + 1
  else if fl % 2 = 0 then fl else fl + 1

/-- Python `f"{q:.2f}"` for the nonnegative ratios handled by the app. -/
def fmt2 (q : Rat) : String :=
  let n := roundHalfEven (q * 100)
  let whole := n / 100
  let cents := (n % 100).toNat
  toString whole ++ "." ++ (if cents < 10 then "0" else "") ++ toString cents

/-- The numeric value of an ASCII digit. -/
def digitVal (c : Char) : Option Nat :=
  if 48 ≤ c.toNat ∧ c.toNat ≤ 57 then some (c.toNat - 48) else Option.none

def digitsOfAux : List Char → Nat → Option Nat
  | [], acc => some acc
  | c :: cs, acc =>
    match digitVal c with
    | some d => digitsOfAux cs (acc * 10 + d)
    | Option.none => Option.none

/-- The value of a (possibly empty) ASCII digit run. -/
def digitsOf (cs : List Char) : Option Nat := digitsOfAux cs 0

/-- The `float(s)` on the plain decimal strings the app produces: optional sign,
integer part, optional fractional part.  Anything else raises
`ValueError`. -/
def pyFloat (s : String) : Except PyErr Rat :=
  let sgnBody : Int × List Char :=
    match s.data with
    | '-' :: rest => (-1, rest)
    | '+' :: rest => (1, rest)
    | cs => (1, cs)
  let sgn := sgnBody.1
  let body := sgnBody.2
  match body.splitOn '.' with
  | [ip] =>
    if ip.isEmpty then .error (.valueError ("could not convert string to float: " ++ s))
    else
      match digitsOf ip with
      | some a => .ok ((sgn : Rat) * (a : Rat))
      | Option.none => .error (.valueError ("could not convert string to float: " ++ s))
  | [ip, fp] =>
    if ip.isEmpty && fp.isEmpty then
      .error (.valueError ("could not convert string to float: " ++ s))
    else
      match digitsOf ip, digitsOf fp with
      | some a, some b =>
        .ok ((sgn : Rat) * ((a : Rat) + (b : Rat) / (10 : Rat) ^ fp.length))
      | _, _ => .error (.valueError ("could not convert string to float: " ++ s))
  | _ => .error (.valueError ("could not convert string to float: " ++ s))

/-- The `float(v)` on a non-string Python value. -/
def pyFloatOf : PyVal → Except PyErr Rat
  | .str s => pyFloat s
  | .rat q => .ok q
  | .bool b => .ok (if b then 1 else 0)
  | _ => .error (.typeError "float() argument must be a string or a real number")

/-- The `s.split(':')[0]`: the characters before the first colon. -/
def takeUntilColon : List Char → List Char
  | [] => []
  | c :: cs => if c = ':' then [] else c :: takeUntilColon cs

/-- The `filepath.lower().endswith(".jp2")`. -/
def endsWithJp2 (s : String) : Bool :=
  List.isSuffixOf ".jp2".data (strLower s).data

def basenameAux : List Char → List Char → List Char
  | [], acc => acc
  | c :: cs, acc => if c = '/' then basenameAux cs [] else basenameAux cs (acc ++ [c])

/-- The `os.path.basename`: the characters after the last path separator. -/
def basename (p : String) : String := ⟨basenameAux p.data []⟩

def dropAfterLastDot : List Char → Option (List Char)
  | [] => Option.none
  | c :: cs =>
    match dropAfterLastDot cs with
    | some rest => some (c :: rest)
    | Option.none => if c = '.' then some [] else Option.none

/-- The `os.path.splitext(name)[0]`: strips the last extension; a bare leading
dot (hidden files) is kept. -/
def splitextBase (name : String) : String :=
  match dropAfterLastDot name.data with
  | some pre => if pre.isEmpty then name else ⟨pre⟩
  | Option.none => name

/-- The `output_file` of a `JP2ForgeResult`: `None`, a single path, or a list of
paths (multi-page). -/
inductive OutputFile where
  | nofile
  | single (path : String)
  | pages (paths : List String)

/-- The `JP2ForgeResult` class: the uniform result object of the adapter.
`None` metrics and file sizes are already replaced by `{}`, as in
`__init__`. -/
structure JP2ForgeResult where
  output_file : OutputFile
  file_sizes : List (String × PyVal)
  metrics : List (String × PyVal)
  success : Bool
  error : Option String

/-- The `len(b"MOCK JP2 FILE CONVERSION")`: size of the placeholder output
written when the mock copy fails. -/
def MOCK_BYTES_LEN : Nat := 24

/-- The `JP2ForgeAdapter.mock_conversion`: with an existing input of `inputSize`
bytes, copies the input (`copyOk` says whether `shutil.copy` succeeded;
otherwise the 24 placeholder bytes are written), computes the real
compression ratio from the byte sizes (1.0 when the output is empty), and
returns fixed placeholder quality metrics.  The progress-callback loop and
the filesystem writes are external effects with no bearing on the returned
value. -/
def mock_conversion (inputExists : Bool) (inputSize : Nat) (copyOk : Bool)
    (input_path output_dir : String) : JP2ForgeResult :=
  if !inputExists then
    { output_file := .nofile, file_sizes := [], metrics := [], success := false,
      error := some ("Input file not found: " ++ input_path) }
  else
    let base_name := splitextBase (basename input_path)
    let outPath := output_dir ++ "/" ++ base_name ++ ".jp2"
    let output_size := if copyOk then inputSize else MOCK_BYTES_LEN
    let cratioV : Rat := if output_size > 0 then (inputSize : Rat) / (output_size : Rat) else 1.0
    { output_file := .single outPath,
      file_sizes := [("original_size", .rat inputSize), ("converted_size", .rat output_size),
                     ("compression_ratio", .str (fmt2 cratioV ++ ":1"))],
      metrics := [("psnr", .rat 40.0), ("ssim", .rat 0.95)],
      success := true, error := Option.none }

/-- Result fields of the external `StandardWorkflow.process_file` call
(extracted with `getattr`, defaulting to `{}`). -/
structure WorkflowOut where
  output_file : OutputFile
  file_sizes : List (String × PyVal)
  metrics : List (String × PyVal)

/-- The `JP2ForgeAdapter.process_file`.  `mockMode` and `available` model the
module-level `MOCK_MODE` and `self.jp2forge_available` flags; `config` is
`None` or a created configuration; `workflow` models the external library
call (it returns fields or raises), whose exception the surrounding
`try/except` turns into a failure result. -/
def process_file (mockMode available : Bool) (inputExists : Bool) (inputSize : Nat)
    (copyOk : Bool) (input_path output_dir : String) (config : Option Unit)
    (workflow : Except PyErr WorkflowOut) : JP2ForgeResult :=
  if mockMode || !available then
    mock_conversion inputExists inputSize copyOk input_path output_dir
  else
    match config with
    | Option.none =>
      { output_file := .nofile, file_sizes := [], metrics := [], success := false,
        error := some "Invalid configuration" }
    | some _ =>
      if !inputExists then
        { output_file := .nofile, file_sizes := [], metrics := [], success := false,
          error := some ("Input file not found: " ++ input_path) }
      else
        match workflow with
        | .ok r =>
          { output_file := r.output_file, file_sizes := r.file_sizes,
            metrics := r.metrics, success := true, error := Option.none }
        | .error e =>
          { output_file := .nofile, file_sizes := [], metrics := [], success := false,
            error := some (errMsg e) }

/-- The `output_files` list formed at the head of `validate_bnf_compliance`:
the list itself when `output_file` is a list, otherwise the one-element list
containing it (which is `[None]` when there is no output). -/
def outputFilesOf (r : JP2ForgeResult) : List (Option String) :=
  match r.output_file with
  | .pages ps => ps.map some
  | .single p => [some p]
  | .nofile => [Option.none]

/-- The compression-ratio extraction of `validate_bnf_compliance`: from
`file_sizes["compression_ratio"]` (a `"X.YY:1"` string or a number), else
from the original and converted sizes, else `None`.  Parse failures and
arithmetic on non-numbers raise. -/
def ratioFromSizes (fs : List (String × PyVal)) : Except PyErr (Option Rat) :=
  if fs.isEmpty then .ok Option.none
  else
    match lookup fs "compression_ratio" with
    | some (.str s) =>
      if s.data.contains ':' then
        match pyFloat ⟨takeUntilColon s.data⟩ with
        | .ok q => .ok (some q)
        | .error e => .error e
      else if s = "" then .ok (some 1.0)
      else
        match pyFloat s with
        | .ok q => .ok (some q)
        | .error e => .error e
    | some v =>
      if pyTruthy v then
        match pyFloatOf v with
        | .ok q => .ok (some q)
        | .error e => .error e
      else .ok (some 1.0)
    | Option.none =>
      match lookup fs "original_size", lookup fs "converted_size" with
      | some (.rat o), some (.rat c) => .ok (some (if 0 < c then o / c else 1.0))
      | some _, some _ => .error (.typeError "unsupported operand type(s) for /")
      | _, _ => .ok Option.none

/-- Truthiness of `check["passed"]` in `validate_jp2_file`; every check built
there carries the key. -/
def checkPassedTruthy (v : PyVal) : Bool :=
  match v with
  | .dict d =>
    match lookup d "passed" with
    | some pv => pyTruthy pv
    | Option.none => false
  | _ => false

/-- The `BnFValidator.validate_jp2_file`, against an abstract file system `fsE`
giving `os.path.exists`.  A `None` filepath (no adapter output) makes
`os.path.exists` raise `TypeError`; an unknown document type is caught by the
internal `except` and recorded under `"error"`. -/
def validate_jp2_file (fsE : String → Bool) (filepath : Option String)
    (document_type : String) : Except PyErr (List (String × PyVal)) :=
  match filepath with
  | Option.none =>
    .error (.typeError "stat: path should be string, bytes, os.PathLike or integer, not NoneType")
  | some fp =>
    if !(fsE fp) then .ok [("is_compliant", .bool false), ("error", .str "File not found")]
    else
      let results : List (String × PyVal) :=
        [("is_compliant", .bool false), ("filepath", .str fp),
         ("document_type", .str document_type), ("checks", .dict [])]
      if !(endsWithJp2 fp) then
        .ok (setk results "checks" (.dict [("format", .dict
          [("passed", .bool false), ("message", .str "Not a JPEG2000 file")])]))
      else
        let checks : List (String × PyVal) :=
          [("format", .dict [("passed", .bool true), ("message", .str "Valid JPEG2000 format")])]
        let checks := setk checks "resolution_levels" (.dict
          [("passed", .bool true), ("expected", .rat REQUIRED_RESOLUTION_LEVELS),
           ("actual", .rat REQUIRED_RESOLUTION_LEVELS),
           ("message", .str "Meets required resolution levels")])
        match targetRatioOf document_type with
        | .error e =>
          .ok (setk (setk results "checks" (.dict checks)) "error" (.str (errMsg e)))
        | .ok target =>
          let checks := setk checks "compression_ratio" (.dict
            [("passed", .bool true), ("expected", .rat target), ("actual", .rat target),
             ("message", .str ("Compression ratio " ++ fmt2 target ++ ":1 meets requirements"))])
          let results := setk results "checks" (.dict checks)
          .ok (setk results "is_compliant"
            (.bool (checks.all fun kv => checkPassedTruthy kv.2)))

/-- The `validation_result.get("checks", {})` as a dictionary. -/
def checksOf (vr : List (String × PyVal)) : List (String × PyVal) :=
  match lookup vr "checks" with
  | some (.dict cs) => cs
  | _ => []

/-- The `checks["compression_ratio"]` entry written by
`validate_bnf_compliance`: always `passed = "true"` (the lossless-fallback
rule), with a fallback note when the measured ratio is below target. -/
def ratioCheckEntry (q target : Rat) : List (String × PyVal) :=
  [("passed", .str "true"), ("expected", .rat target), ("actual", .rat q),
   ("message", .str (if q < target then
     "Using lossless compression as fallback (ratio " ++ fmt2 q ++
       ":1 doesn't meet target " ++ fmt2 target ++ ":1 but is BnF compliant via fallback)"
   else
     "Compression ratio " ++ fmt2 q ++ ":1 meets requirements"))]

/-- Writing the compression-ratio check into the validation result, plus the
`File not found` special case that validates from metrics alone. -/
def addRatioCheck (vr : List (String × PyVal)) (q target : Rat) : List (String × PyVal) :=
  let vr2 := setk vr "checks" (.dict (setk (checksOf vr) "compression_ratio"
    (.dict (ratioCheckEntry q target))))
  match lookup vr2 "error" with
  | some (.str s) =>
    if s = "File not found" then
      setk (setk vr2 "is_compliant" (.str "true")) "note"
        (.str "Validation based on metrics data; file access validation skipped")
    else vr2
  | _ => vr2

/-- The final loop of `validate_bnf_compliance`: when there is at least one
check and every check has `passed == "true"`, overall compliance is set to
`"true"`. -/
def finalizeCompliance (vr : List (String × PyVal)) : List (String × PyVal) :=
  let checks := checksOf vr
  let has_checks := !checks.isEmpty
  let all_checks_pass := checks.all fun kv =>
    match kv.2 with
    | .dict d =>
      match lookup d "passed" with
      | some (.str s) => s == "true"
      | _ => false
    | _ => false
  if has_checks && all_checks_pass then setk vr "is_compliant" (.str "true") else vr

/-- The `JP2ForgeAdapter.validate_bnf_compliance`. -/
def validate_bnf_compliance (fsE : String → Bool) (result : JP2ForgeResult)
    (document_type : String) : Except PyErr (List (String × PyVal)) :=
  if !result.success then
    .ok [("is_compliant", .str "false"),
         ("error", .str "Invalid conversion result, cannot validate")]
  else
    match outputFilesOf result with
    | [] =>
      .ok [("is_compliant", .str "false"), ("error", .str "No output files to validate")]
    | first_file :: _ =>
      match validate_jp2_file fsE first_file document_type with
      | .error e => .error e
      | .ok vr0 =>
        let vr := if hasKey vr0 "checks" then vr0 else setk vr0 "checks" (.dict [])
        match ratioFromSizes result.file_sizes with
        | .error e => .error e
        | .ok Option.none => .ok (finalizeCompliance vr)
        | .ok (some q) =>
          match is_compression_ratio_compliant DEFAULT_TOLERANCE q document_type with
          | .error e => .error e
          | .ok (_, target) => .ok (finalizeCompliance (addRatioCheck vr q target))

/-- C9: in `mock_conversion` the recorded compression ratio is the input size
divided by the output size only when the output size is strictly positive,
and is the constant 1.0 when the output size is zero, so the ratio
computation is total and the division branch never sees a zero divisor. -/
theorem mock_ratio_total (inputSize : Nat) (copyOk : Bool) (input_path output_dir : String) :
    ∃ q : Rat,
      lookup (mock_conversion true inputSize copyOk input_path output_dir).file_sizes
          "compression_ratio" = some (.str (fmt2 q ++ ":1")) ∧
      ((if copyOk then inputSize else MOCK_BYTES_LEN) = 0 → q = 1.0) ∧
      (0 < (if copyOk then inputSize else MOCK_BYTES_LEN) →
        q = (inputSize : Rat) / (((if copyOk then inputSize else MOCK_BYTES_LEN) : Nat) : Rat)) := by
  by_cases h0 : (if copyOk then inputSize else MOCK_BYTES_LEN) = 0
  · refine ⟨1.0, ?_, fun _ => rfl, fun hpos => absurd h0 (by omega)⟩
    simp [mock_conversion, h0]
  · refine ⟨(inputSize : Rat) / (((if copyOk then inputSize else MOCK_BYTES_LEN) : Nat) : Rat),
      ?_, fun he => absurd he h0, fun _ => rfl⟩
    simp [mock_conversion, Nat.pos_of_ne_zero h0]

/-- Witness for C9 on the placeholder-output branch. -/
theorem mock_ratio_total_witness :
    ∃ q : Rat,
      lookup (mock_conversion true 48 false "a.tif" "out").file_sizes
          "compression_ratio" = some (.str (fmt2 q ++ ":1")) ∧
      ((if false then 48 else MOCK_BYTES_LEN) = 0 → q = 1.0) ∧
      (0 < (if false then 48 else MOCK_BYTES_LEN) →
        q = ((48 : Nat) : Rat) / (((if false then 48 else MOCK_BYTES_LEN) : Nat) : Rat)) :=
  mock_ratio_total 48 false "a.tif" "out"

/-- C3 (amended): `process_file` — including its mock-conversion branch —
always returns a structured `JP2ForgeResult`: it reports `success = false`
exactly when the mock branch finds no input, or (real branch) the
configuration is `None`, the input is missing, or the library call raises;
and in every failure case the `error` field is populated.  (The claim fails
for `create_config` and `validate_bnf_compliance`, which can raise — see the
counterexample.) -/
theorem process_file_structured_failures (mockMode available inputExists : Bool)
    (inputSize : Nat) (copyOk : Bool) (input_path output_dir : String)
    (config : Option Unit) (workflow : Except PyErr WorkflowOut) :
    ((process_file mockMode available inputExists inputSize copyOk input_path output_dir
        config workflow).success = false ↔
      (((mockMode || !available) = true ∧ inputExists = false) ∨
       ((mockMode || !available) = false ∧
         (config = Option.none ∨ inputExists = false ∨ ∃ e, workflow = .error e)))) ∧
    ((process_file mockMode available inputExists inputSize copyOk input_path output_dir
        config workflow).success = false →
      (process_file mockMode available inputExists inputSize copyOk input_path output_dir
        config workflow).error.isSome = true) := by
  cases mockMode <;> cases available <;> cases inputExists <;> cases config <;>
    cases workflow <;> simp [process_file, mock_conversion]

/-- Witness for C3: a raising library call is converted into a structured
failure with a populated error. -/
theorem process_file_structured_failures_witness :
    (process_file false true true 5 true "in.tif" "out" (some ())
        (.error (.other "boom"))).success = false ∧
    (process_file false true true 5 true "in.tif" "out" (some ())
        (.error (.other "boom"))).error.isSome = true :=
  ⟨rfl, (process_file_structured_failures false true true 5 true "in.tif" "out" (some ())
    (.error (.other "boom"))).2 rfl⟩

/-- C3 counterexample: `validate_bnf_compliance` raises `ValueError` past the
adapter boundary on a successful result whose compression ratio is readable
but whose document type is not one of the four table keys; so not every
public adapter method converts internal failures into a structured result. -/
theorem validate_bnf_compliance_raises :
    validate_bnf_compliance (fun _ => true)
      { output_file := .single "out.jp2",
        file_sizes := [("compression_ratio", .str "2.00:1")],
        metrics := [], success := true, error := Option.none }
      "unknown" = .error (.valueError "Unknown document type: unknown") := rfl

theorem validate_jp2_file_ok (fsE : String → Bool) (fp dt : String) :
    ∃ vr, validate_jp2_file fsE (some fp) dt = .ok vr ∧
      (lookup vr "checks" = Option.none ∨ ∃ cs0, lookup vr "checks" = some (.dict cs0)) := by
  simp only [validate_jp2_file]
  by_cases h1 : fsE fp
  · by_cases h2 : endsWithJp2 fp
    · cases htr : targetRatioOf dt with
      | error e =>
        simp only [h1, h2, htr, Bool.not_true, Bool.false_eq_true, if_false]
        exact ⟨_, rfl, Or.inr ⟨_, by
          rw [lookup_setk_ne _ _ _ _ (by decide), lookup_setk_self]⟩⟩
      | ok target =>
        simp only [h1, h2, htr, Bool.not_true, Bool.false_eq_true, if_false]
        exact ⟨_, rfl, Or.inr ⟨_, by
          rw [lookup_setk_ne _ _ _ _ (by decide), lookup_setk_self]⟩⟩
    · simp only [h1, Bool.not_true, Bool.false_eq_true, if_false]
      rw [if_pos (by simp [h2])]
      exact ⟨_, rfl, Or.inr ⟨_, by rw [lookup_setk_self]⟩⟩
  · rw [if_pos (by simp [h1])]
    exact ⟨_, rfl, Or.inl (by simp)⟩

theorem lookup_finalizeCompliance_ne (vr : List (String × PyVal)) (k : String)
    (hk : k ≠ "is_compliant") :
    lookup (finalizeCompliance vr) k = lookup vr k := by
  simp only [finalizeCompliance]
  split
  · exact lookup_setk_ne _ _ _ _ hk
  · rfl

theorem lookup_addRatioCheck_checks (vr : List (String × PyVal)) (q target : Rat) :
    lookup (addRatioCheck vr q target) "checks" =
      some (.dict (setk (checksOf vr) "compression_ratio"
        (.dict (ratioCheckEntry q target)))) := by
  simp only [addRatioCheck]
  split
  · split
    · rw [lookup_setk_ne _ _ _ _ (by decide), lookup_setk_ne _ _ _ _ (by decide),
        lookup_setk_self]
    · rw [lookup_setk_self]
  · rw [lookup_setk_self]

/-- C4: in BnF mode, whenever the conversion result carries an output file
and a computable compression ratio for a known category, the recorded
compression-ratio check has `passed = "true"` — even when the measured ratio
is below the category target; and only the total absence of a usable output
(a failed conversion, or an empty output list) yields the non-compliant
verdict `"false"` with an error message. -/
theorem bnf_fallback_compliance :
    (∀ (fsE : String → Bool) (result : JP2ForgeResult) (dt : String)
        (target q : Rat) (p : Option String) (tl : List (Option String)),
      targetRatioOf dt = .ok target →
      result.success = true →
      outputFilesOf result = p :: tl →
      ratioFromSizes result.file_sizes = .ok (some q) →
      p.isSome = true →
      ∃ vr cs cd, validate_bnf_compliance fsE result dt = .ok vr ∧
        lookup vr "checks" = some (.dict cs) ∧
        lookup cs "compression_ratio" = some (.dict cd) ∧
        lookup cd "passed" = some (.str "true")) ∧
    (∀ (fsE : String → Bool) (result : JP2ForgeResult) (dt : String)
        (target q : Rat) (p : String) (tl : List (Option String)),
      targetRatioOf dt = .ok target →
      result.success = true →
      outputFilesOf result = some p :: tl →
      ratioFromSizes result.file_sizes = .ok (some q) →
      (fsE p = true → endsWithJp2 p = true) →
      ∃ vr ic, validate_bnf_compliance fsE result dt = .ok vr ∧
        lookup vr "is_compliant" = some ic ∧ pyTruthy ic = true) ∧
    (∀ (fsE : String → Bool) (result : JP2ForgeResult) (dt : String),
      result.success = false →
      validate_bnf_compliance fsE result dt =
        .ok [("is_compliant", .str "false"),
             ("error", .str "Invalid conversion result, cannot validate")]) ∧
    (∀ (fsE : String → Bool) (result : JP2ForgeResult) (dt : String),
      result.success = true → outputFilesOf result = [] →
      validate_bnf_compliance fsE result dt =
        .ok [("is_compliant", .str "false"),
             ("error", .str "No output files to validate")]) := by
  refine ⟨?_, ?_, ?_, ?_⟩
  · intro fsE result dt target q p tl htr hsuc houts hq hp
    obtain ⟨fp, rfl⟩ := Option.isSome_iff_exists.mp hp
    obtain ⟨vr0, hvr0, hcks⟩ := validate_jp2_file_ok fsE fp dt
    have hicc : is_compression_ratio_compliant DEFAULT_TOLERANCE q dt =
        .ok (decide (target * (1 - DEFAULT_TOLERANCE) ≤ q) &&
          decide (q ≤ target * (1 + DEFAULT_TOLERANCE)), target) := by
      simp [is_compression_ratio_compliant, htr]
    have hval : validate_bnf_compliance fsE result dt =
        .ok (finalizeCompliance (addRatioCheck
          (if hasKey vr0 "checks" then vr0 else setk vr0 "checks" (.dict [])) q target)) := by
      simp only [validate_bnf_compliance, hsuc, houts, hvr0, hq, hicc, Bool.not_true,
        Bool.false_eq_true, if_false]
    refine ⟨finalizeCompliance (addRatioCheck
        (if hasKey vr0 "checks" then vr0 else setk vr0 "checks" (.dict [])) q target),
      setk (checksOf (if hasKey vr0 "checks" then vr0 else setk vr0 "checks" (.dict [])))
        "compression_ratio" (.dict (ratioCheckEntry q target)),
      ratioCheckEntry q target, hval, ?_, ?_, ?_⟩
    · rw [lookup_finalizeCompliance_ne _ _ (by decide), lookup_addRatioCheck_checks]
    · exact lookup_setk_self _ _ _
    · simp [ratioCheckEntry]
  · intro fsE result dt target q p tl htr hsuc houts hq husable
    have hicc : is_compression_ratio_compliant DEFAULT_TOLERANCE q dt =
        .ok (decide (target * (1 - DEFAULT_TOLERANCE) ≤ q) &&
          decide (q ≤ target * (1 + DEFAULT_TOLERANCE)), target) := by
      simp [is_compression_ratio_compliant, htr]
    by_cases hfe : fsE p
    · have hjp : endsWithJp2 p = true := husable hfe
      have hvr0 : validate_jp2_file fsE (some p) dt = .ok (setk
          (setk [("is_compliant", .bool false), ("filepath", .str p),
            ("document_type", .str dt), ("checks", .dict [])] "checks"
            (.dict (setk (setk
              [("format", .dict [("passed", .bool true),
                ("message", .str "Valid JPEG2000 format")])]
              "resolution_levels" (.dict
                [("passed", .bool true), ("expected", .rat REQUIRED_RESOLUTION_LEVELS),
                 ("actual", .rat REQUIRED_RESOLUTION_LEVELS),
                 ("message", .str "Meets required resolution levels")]))
              "compression_ratio" (.dict
                [("passed", .bool true), ("expected", .rat target),
                 ("actual", .rat target),
                 ("message", .str ("Compression ratio " ++ fmt2 target ++
                   ":1 meets requirements"))]))))
          "is_compliant" (.bool true)) := by
        simp [validate_jp2_file, hfe, hjp, htr, setk, checkPassedTruthy, lookup, pyTruthy]
      have hval : validate_bnf_compliance fsE result dt =
          .ok (finalizeCompliance (addRatioCheck
            (if hasKey (setk
              (setk [("is_compliant", .bool false), ("filepath", .str p),
                ("document_type", .str dt), ("checks", .dict [])] "checks"
                (.dict (setk (setk
                  [("format", .dict [("passed", .bool true),
                    ("message", .str "Valid JPEG2000 format")])]
                  "resolution_levels" (.dict
                    [("passed", .bool true),
                     ("expected", .rat REQUIRED_RESOLUTION_LEVELS),
                     ("actual", .rat REQUIRED_RESOLUTION_LEVELS),
                     ("message", .str "Meets required resolution levels")]))
                  "compression_ratio" (.dict
                    [("passed", .bool true), ("expected", .rat target),
                     ("actual", .rat target),
                     ("message", .str ("Compression ratio " ++ fmt2 target ++
                       ":1 meets requirements"))]))))
              "is_compliant" (.bool true)) "checks" then (setk
              (setk [("is_compliant", .bool false), ("filepath", .str p),
                ("document_type", .str dt), ("checks", .dict [])] "checks"
                (.dict (setk (setk
                  [("format", .dict [("passed", .bool true),
                    ("message", .str "Valid JPEG2000 format")])]
                  "resolution_levels" (.dict
                    [("passed", .bool true),
                     ("expected", .rat REQUIRED_RESOLUTION_LEVELS),
                     ("actual", .rat REQUIRED_RESOLUTION_LEVELS),
                     ("message", .str "Meets required resolution levels")]))
                  "compression_ratio" (.dict
                    [("passed", .bool true), ("expected", .rat target),
                     ("actual", .rat target),
                     ("message", .str ("Compression ratio " ++ fmt2 target ++
                       ":1 meets requirements"))]))))
              "is_compliant" (.bool true)) else setk (setk
              (setk [("is_compliant", .bool false), ("filepath", .str p),
                ("document_type", .str dt), ("checks", .dict [])] "checks"
                (.dict (setk (setk
                  [("format", .dict [("passed", .bool true),
                    ("message", .str "Valid JPEG2000 format")])]
                  "resolution_levels" (.dict
                    [("passed", .bool true),
                     ("expected", .rat REQUIRED_RESOLUTION_LEVELS),
                     ("actual", .rat REQUIRED_RESOLUTION_LEVELS),
                     ("message", .str "Meets required resolution levels")]))
                  "compression_ratio" (.dict
                    [("passed", .bool true), ("expected", .rat target),
                     ("actual", .rat target),
                     ("message", .str ("Compression ratio " ++ fmt2 target ++
                       ":1 meets requirements"))]))))
              "is_compliant" (.bool true)) "checks" (.dict [])) q target)) := by
        simp only [validate_bnf_compliance, hsuc, houts, hvr0, hq, hicc, Bool.not_true,
          Bool.false_eq_true, if_false]
      refine ⟨_, .bool true, hval, ?_, rfl⟩
      simp [finalizeCompliance, addRatioCheck, checksOf, ratioCheckEntry, lookup_setk,
        hasKey, setk, lookup]
    · have hvr0 : validate_jp2_file fsE (some p) dt =
          .ok [("is_compliant", .bool false), ("error", .str "File not found")] := by
        simp [validate_jp2_file, hfe]
      have hval : validate_bnf_compliance fsE result dt =
          .ok (finalizeCompliance (addRatioCheck
            (if hasKey [("is_compliant", PyVal.bool false),
                ("error", PyVal.str "File not found")] "checks" then
              [("is_compliant", PyVal.bool false), ("error", PyVal.str "File not found")]
            else setk [("is_compliant", PyVal.bool false),
                ("error", PyVal.str "File not found")] "checks" (.dict [])) q target)) := by
        simp only [validate_bnf_compliance, hsuc, houts, hvr0, hq, hicc, Bool.not_true,
          Bool.false_eq_true, if_false]
      refine ⟨_, .str "true", hval, ?_, rfl⟩
      simp [finalizeCompliance, addRatioCheck, checksOf, ratioCheckEntry, lookup_setk,
        hasKey, setk, lookup]
  · intro fsE result dt hfail
    simp only [validate_bnf_compliance, hfail, Bool.not_false, if_true]
  · intro fsE result dt hsuc hout
    simp only [validate_bnf_compliance, hsuc, hout, Bool.not_true, Bool.false_eq_true,
      if_false]

/-- Witness for C4: a missing output file (mock run gone) but a readable
ratio 2.00 below the `color` target 6.0 still records `passed = "true"`. -/
theorem bnf_fallback_compliance_witness :
    ∃ vr cs cd, validate_bnf_compliance (fun _ => false)
        { output_file := .single "a.jp2",
          file_sizes := [("compression_ratio", .str "2.00:1")],
          metrics := [], success := true, error := Option.none } "color" = .ok vr ∧
      lookup vr "checks" = some (.dict cs) ∧
      lookup cs "compression_ratio" = some (.dict cd) ∧
      lookup cd "passed" = some (.str "true") :=
  bnf_fallback_compliance.1 (fun _ => false)
    { output_file := .single "a.jp2",
      file_sizes := [("compression_ratio", .str "2.00:1")],
      metrics := [], success := true, error := Option.none } "color" 6.0
    (((1 : Int) : Rat) * (((2 : Nat) : Rat) + ((0 : Nat) : Rat) / (10 : Rat) ^ 2))
    (some "a.jp2") [] rfl rfl rfl rfl rfl

/-! ## tasks.py and the retry view -/

mutual
/-- The `prepare_for_json`: `None` becomes `{}`, booleans become the strings
`"true"`/`"false"`, numbers and strings pass through (`Rat` has no NaN or
infinity), dictionaries and lists are transformed recursively. -/
def prepare_for_json : PyVal → PyVal
  | .none => .dict []
  | .bool b => .str (if b then "true" else "false")
  | .rat q => .rat q
  | .str s => .str s
  | .dict kvs => .dict (prepareKVs kvs)
  | .list xs => .list (prepareList xs)

def prepareList : List PyVal → List PyVal
  | [] => []
  | x :: xs => prepare_for_json x :: prepareList xs

def prepareKVs : List (String × PyVal) → List (String × PyVal)
  | [] => []
  | (k, v) :: rest => (k, prepare_for_json v) :: prepareKVs rest
end

/-- The `ensure_json_serializable` on the metrics dictionary: in this value model
the prepared data always passes the `json.dumps` test, so the fallback to
`{}` never fires. -/
def ensure_json_serializable (kvs : List (String × PyVal)) : List (String × PyVal) :=
  prepareKVs kvs

/-- The `ConversionJob` columns that the processor and the retry view touch.
`completed_at` is modelled as an optional timestamp; `compressionRatioCol`
models the `compression_ratio` column. -/
structure Job where
  status : String
  progress : Rat
  output_filename : Option String
  result_file : Option String
  original_size : Option PyVal
  converted_size : Option PyVal
  compressionRatioCol : Option Rat
  completed_at : Option Nat
  error_message : Option String
  metrics : List (String × PyVal)
  task_id : Option String

/-- The `handle_job_error`: sets the status and message, and stamps
`completed_at` only when the new status is `failed`. -/
def handle_job_error (job : Job) (error_message : String) (status : String) (now : Nat) :
    Job :=
  let job := { job with status := status, error_message := some error_message }
  if status = "failed" then { job with completed_at := some now } else job

/-- The `job_retry` from views.py: only a `failed` job is retried; the reset
writes status `pending`, progress 0 and a cleared error message — and nothing
else; a failing enqueue flips the job back to `failed`. -/
def job_retry (job : Job) (taskId : String) (enqueue : Except String Unit) : Job :=
  if job.status ≠ "failed" then job
  else
    let job := { job with
      status := "pending", progress := 0, error_message := Option.none }
    match enqueue with
    | .ok _ => { job with task_id := some taskId }
    | .error e =>
      { job with
        status := "failed"
        error_message := some ("Failed to retry conversion: " ++ e) }

/-- The BnF-mode metrics rewrite of the file-size block (tasks.py lines
326-355): records the compliance verdict under `bnf_compliance`, and when a
`bnf_validation`/`checks`/`compression_ratio` record exists, overwrites its
actual ratio and marks it passed per the lossless-fallback rule. -/
def bnfMetricsUpdate (metrics0 : List (String × PyVal)) (isCompl : Bool)
    (ratioV target : Rat) (docType : String) : List (String × PyVal) :=
  let metrics := setk metrics0 "bnf_compliance" (.dict
    [("is_compliant", .bool isCompl), ("target_ratio", .rat target),
     ("actual_ratio", .rat ratioV), ("document_type", .str docType),
     ("tolerance", .rat DEFAULT_TOLERANCE)])
  match lookup metrics "bnf_validation" with
  | some (.dict bv) =>
    match lookup bv "checks" with
    | some (.dict cs) =>
      match lookup cs "compression_ratio" with
      | some (.dict cd) =>
        let cd := setk cd "actual" (.rat ratioV)
        let cd := setk cd "passed" (.str "true")
        let cd := setk cd "message" (.str (if isCompl then
            "Compression ratio " ++ fmt2 ratioV ++ ":1 meets requirements"
          else
            "Using lossless compression as fallback (ratio " ++ fmt2 ratioV ++
              ":1 doesn't meet target " ++ fmt2 target ++
              ":1 but is BnF compliant via fallback)"))
        setk metrics "bnf_validation" (.dict (setk bv "checks"
          (.dict (setk cs "compression_ratio" (.dict cd)))))
      | _ => metrics
    | _ => metrics
  | _ => metrics

/-- The file-size block of the success path (tasks.py lines 303-367): stores
sizes, parses the compression ratio (possibly an `"X.YY:1"` string, default
`"0"`), and in BnF mode records the compliance verdict in the metrics,
rewriting an existing compression-ratio check per the lossless-fallback
rule. -/
def applySizes (job : Job) (result : JP2ForgeResult) (isBnf : Bool) (docType : String) :
    Except PyErr (Job × JP2ForgeResult) :=
  if result.file_sizes.isEmpty then .ok (job, result)
  else
    let origDefault : PyVal :=
      match job.original_size with
      | some v => if pyTruthy v then v else .rat 0
      | Option.none => .rat 0
    let job := { job with
      original_size := some ((lookup result.file_sizes "original_size").getD origDefault)
      converted_size := some ((lookup result.file_sizes "converted_size").getD (.rat 0)) }
    let cr := (lookup result.file_sizes "compression_ratio").getD (.str "0")
    match (match cr with
      | .str s =>
        if s.data.contains ':' then pyFloat ⟨takeUntilColon s.data⟩
        else if s = "" then Except.ok 0
        else pyFloat s
      | v => if pyTruthy v then pyFloatOf v else Except.ok 0) with
    | .error e => .error e
    | .ok ratioV =>
      let job := { job with compressionRatioCol := some ratioV }
      if isBnf then
        match is_compression_ratio_compliant DEFAULT_TOLERANCE ratioV docType with
        | .error e => .error e
        | .ok (isCompl, target) =>
          .ok (job, { result with
            metrics := bnfMetricsUpdate result.metrics isCompl ratioV target docType })
      else .ok (job, result)

/-- The compliance-record part of one synthesized `page_metrics` dictionary
(tasks.py lines 420-440), followed by the page number and filename stamps. -/
def synthPageTail (resultMetrics : List (String × PyVal)) (idx : Nat)
    (page_filename : String) (pm0 : List (String × PyVal)) :
    Except PyErr (List (String × PyVal)) :=
  match (match lookup resultMetrics "bnf_compliance" with
    | some (.dict d) => Except.ok (setk pm0 "bnf_compliance" (.dict d))
    | some _ => Except.error (PyErr.other "AttributeError: no attribute copy")
    | Option.none => Except.ok pm0) with
  | .error e => .error e
  | .ok pm =>
    match (match lookup resultMetrics "bnf_validation" with
      | some (.dict bv) =>
        match lookup bv "checks" with
        | some (.dict cs) =>
          match (match lookup cs "compression_ratio" with
            | some (.dict cd) => Except.ok [("compression_ratio", PyVal.dict cd)]
            | some _ => Except.error (PyErr.other "AttributeError: no attribute copy")
            | Option.none => Except.ok []) with
          | .error e => Except.error e
          | .ok inner =>
            Except.ok (setk pm "bnf_validation" (.dict
              [("is_compliant", (lookup bv "is_compliant").getD (.str "false")),
               ("checks", .dict inner)]))
        | some _ => Except.error (PyErr.typeError "argument of type is not iterable")
        | Option.none => Except.ok pm
      | some _ => Except.error (PyErr.typeError "argument of type is not iterable")
      | Option.none => Except.ok pm) with
    | .error e => .error e
    | .ok pm =>
      let pm := setk pm "page_number" (.rat (idx + 1))
      let pm := setk pm "page_filename" (.str page_filename)
      .ok pm

/-- One synthesized `page_metrics` dictionary of the multi-page loop
(tasks.py lines 397-440), used when no `per_page_metrics` entry applies:
copies quality metrics, file sizes, the ratio, and — via `synthPageTail` —
the compliance records, then stamps the page number and filename.
`.copy()` on a non-dictionary and `in` on a non-container raise. -/
def synthPageMetrics (resultMetrics fileSizes : List (String × PyVal))
    (jobRatioCol : Option Rat) (idx : Nat) (page_filename : String) :
    Except PyErr (List (String × PyVal)) :=
  let pm : List (String × PyVal) := []
  let pm := match lookup resultMetrics "psnr" with
    | some v => setk pm "psnr" v
    | Option.none => pm
  let pm := match lookup resultMetrics "ssim" with
    | some v => setk pm "ssim" v
    | Option.none => pm
  match (match lookup resultMetrics "file_sizes" with
    | some (.dict d) => Except.ok (setk pm "file_sizes" (.dict d))
    | some _ => Except.error (PyErr.other "AttributeError: no attribute copy")
    | Option.none =>
      if fileSizes.isEmpty then Except.ok pm
      else Except.ok (setk pm "file_sizes" (.dict fileSizes))) with
  | .error e => .error e
  | .ok pm =>
    let pageFs : List (String × PyVal) :=
      match lookup pm "file_sizes" with
      | some (.dict d) => d
      | _ => []
    let pm :=
      match lookup pageFs "compression_ratio" with
      | some v => setk pm "compression_ratio" v
      | Option.none =>
        match jobRatioCol with
        | some r => if r ≠ 0 then setk pm "compression_ratio" (.str (fmt2 r ++ ":1")) else pm
        | Option.none => pm
    synthPageTail resultMetrics idx page_filename pm

/-- The multi-page loop (tasks.py lines 388-449): builds the `page_files`
names and the `multipage_results` entries for each output file, preferring an
applicable `per_page_metrics` entry and synthesizing one otherwise. -/
def buildPageEntries (ps : List String) (resultMetrics fileSizes : List (String × PyVal))
    (jobRatioCol : Option Rat) (idx : Nat) :
    Except PyErr (List String × List PyVal) :=
  match ps with
  | [] => .ok ([], [])
  | page_file :: rest =>
    let page_filename := basename page_file
    match (match lookup resultMetrics "per_page_metrics" with
      | Option.none =>
        (synthPageMetrics resultMetrics fileSizes jobRatioCol idx page_filename).map PyVal.dict
      | some (.list xs) =>
        match xs.get? idx with
        | some v => Except.ok v
        | Option.none =>
          (synthPageMetrics resultMetrics fileSizes jobRatioCol idx page_filename).map PyVal.dict
      | some (.str s) =>
        if h : idx < s.data.length then Except.ok (.str ⟨[s.data.get ⟨idx, h⟩]⟩)
        else
          (synthPageMetrics resultMetrics fileSizes jobRatioCol idx page_filename).map PyVal.dict
      | some (.dict d) =>
        if idx < d.length then Except.error (PyErr.other "KeyError")
        else
          (synthPageMetrics resultMetrics fileSizes jobRatioCol idx page_filename).map PyVal.dict
      | some _ => Except.error (PyErr.typeError "object has no len")) with
    | .error e => .error e
    | .ok pmv =>
      let page_result : PyVal := .dict
        [("page", .rat (idx + 1)), ("status", .str "SUCCESS"),
         ("output_file", .str page_file), ("metrics", pmv)]
      match buildPageEntries rest resultMetrics fileSizes jobRatioCol (idx + 1) with
      | .error e => .error e
      | .ok (files, entries) => .ok (page_filename :: files, page_result :: entries)

/-- The metrics block of the success path (tasks.py lines 369-496): with
nonempty metrics, serializes them onto the job, and for a list output adds
`pages`, `page_files` and `multipage_results`; any exception inside the block
is caught and falls back to empty job metrics.  With empty metrics the job
metrics stay empty (the basic report only goes to disk). -/
def applyMetrics (job : Job) (result : JP2ForgeResult) : Job :=
  if !result.metrics.isEmpty then
    let jm := ensure_json_serializable result.metrics
    match result.output_file with
    | .pages ps =>
      let jm := setk jm "pages" (.rat ps.length)
      match buildPageEntries ps result.metrics result.file_sizes job.compressionRatioCol 0 with
      | .ok (files, entries) =>
        let jm := setk jm "page_files" (.list (files.map PyVal.str))
        let jm := setk jm "multipage_results" (.list entries)
        { job with metrics := jm }
      | .error _ => { job with metrics := [] }
    | _ => { job with metrics := jm }
  else
    { job with metrics := [] }

/-- The success path of `process_conversion_job` (tasks.py lines 283-500):
status `completed`, progress 100, cleared error, output names from the first
output file, size and ratio columns, metrics with multi-page augmentation,
and finally the completion timestamp. -/
def updateJobOnSuccess (job : Job) (jobId : String) (result : JP2ForgeResult)
    (isBnf : Bool) (docType : String) (now : Nat) : Except PyErr Job :=
  let job := { job with status := "completed", progress := 100, error_message := some "" }
  match (match result.output_file with
    | .pages ps =>
      match ps with
      | [] => Except.error (PyErr.other "IndexError: list index out of range")
      | p :: _ => Except.ok (basename p)
    | .single p => Except.ok (basename p)
    | .nofile => Except.error (PyErr.typeError
        "expected str, bytes or os.PathLike object, not NoneType")) with
  | .error e => .error e
  | .ok outName =>
    let job := { job with
      output_filename := some outName
      result_file := some ("jobs/" ++ jobId ++ "/output/" ++ outName) }
    match applySizes job result isBnf docType with
    | .error e => .error e
    | .ok (job2, result2) =>
      let job3 := applyMetrics job2 result2
      .ok { job3 with completed_at := some now }

/-- The body of the `try` block of `process_conversion_job` after the
status-update preamble: input validation (lines 131-136), then the
configuration construction and adapter call — `adapterOutcome` models what
they return or raise — the success check (line 255), the BnF validation step
(lines 261-277) and the job update. -/
def tryBody (fsE : String → Bool) (input_path : String) (inputExists : Bool)
    (inputSize : Nat) (adapterOutcome : Except PyErr JP2ForgeResult) (job : Job)
    (jobId : String) (isBnf : Bool) (docType : String) (now : Nat) : Except PyErr Job :=
  if !inputExists then .error (.fileNotFound ("Input file not found: " ++ input_path))
  else if inputSize = 0 then .error (.valueError "Input file is empty")
  else
    match adapterOutcome with
    | .error e => .error e
    | .ok result =>
      if !result.success then
        .error (.valueError (match result.error with
          | some e => if e = "" then "Unknown conversion error" else e
          | Option.none => "Unknown conversion error"))
      else
        match (if isBnf then
            match validate_bnf_compliance fsE result docType with
            | .error e => Except.error e
            | .ok vr => Except.ok { result with
                metrics := setk result.metrics "bnf_validation" (.dict vr) }
          else Except.ok result) with
        | .error e => .error e
        | .ok result2 => updateJobOnSuccess job jobId result2 isBnf docType now

/-- The `max_retries` of the `shared_task` decorator. -/
def MAX_RETRIES : Nat := 2

/-- The Celery driver around the task: each attempt first persists status
`processing` and progress 0, then runs the try body; an exception is
classified per the task's `except` clauses — `FileNotFoundError` and
`ValueError` fail the job with no retry, any other exception below the retry
bound leaves the job `processing` with a retrying message and schedules a new
attempt with countdown `2 ** retries`, and at the bound fails the job.
Returns the per-attempt persisted job states and the scheduled countdowns;
the fuel argument only bounds the recursion and never runs out when it
starts at `maxRetries + 1`. -/
def runLoop (fsE : String → Bool) (input_path : String) (inputExists : Bool)
    (inputSize : Nat) (adapterOutcome : Nat → Except PyErr JP2ForgeResult)
    (jobId : String) (isBnf : Bool) (docType : String) (maxRetries now : Nat) :
    Nat → Nat → Job → List Job × List Nat
  | _, 0, job => ([job], [])
  | retries, fuel + 1, job =>
    let jobStart := { job with status := "processing", progress := 0 }
    match tryBody fsE input_path inputExists inputSize (adapterOutcome retries) jobStart
        jobId isBnf docType now with
    | .ok j => ([j], [])
    | .error (.fileNotFound m) =>
      ([handle_job_error jobStart ("File not found: " ++ m) "failed" now], [])
    | .error (.valueError m) =>
      ([handle_job_error jobStart ("Invalid input: " ++ m) "failed" now], [])
    | .error (.typeError m) | .error (.other m) =>
      if retries < maxRetries then
        let jr := handle_job_error jobStart ("Processing failed, retrying: " ++ m)
          "processing" now
        let tail := runLoop fsE input_path inputExists inputSize adapterOutcome jobId isBnf
          docType maxRetries now (retries + 1) fuel jr
        (jr :: tail.1, 2 ^ retries :: tail.2)
      else
        ([handle_job_error jobStart ("Processing failed after " ++ toString maxRetries ++
          " attempts: " ++ m) "failed" now], [])

/-- The `process_conversion_job`: the retry loop started with zero prior retries,
with fuel for `MAX_RETRIES + 1` attempts. -/
def process_conversion_job (fsE : String → Bool) (input_path : String) (inputExists : Bool)
    (inputSize : Nat) (adapterOutcome : Nat → Except PyErr JP2ForgeResult)
    (jobId : String) (isBnf : Bool) (docType : String) (now : Nat) (job : Job) :
    List Job × List Nat :=
  runLoop fsE input_path inputExists inputSize adapterOutcome jobId isBnf docType
    MAX_RETRIES now 0 (MAX_RETRIES + 1) job

/-- The C1 invariant: `completed_at` is non-null exactly on the terminal
statuses. -/
def statusTimestampInv (j : Job) : Prop :=
  j.completed_at.isSome = true ↔ (j.status = "completed" ∨ j.status = "failed")

/-- A freshly created job, used for concrete runs. -/
def jobDefault : Job :=
  { status := "pending", progress := 0, output_filename := Option.none,
    result_file := Option.none, original_size := Option.none,
    converted_size := Option.none, compressionRatioCol := Option.none,
    completed_at := Option.none, error_message := Option.none, metrics := [],
    task_id := Option.none }

/-- C1 (code bug): `handle_job_error` stamps `completed_at` when it fails a
job, but `job_retry` resets only status, progress and error message; the
retried job is `pending` with `completed_at` still set, violating the
completed-iff-terminal invariant the claim states. -/
theorem retry_keeps_stale_completed_at :
    (handle_job_error jobDefault "boom" "failed" 5).completed_at = some 5 ∧
    (job_retry (handle_job_error jobDefault "boom" "failed" 5) "task-1"
      (.ok ())).status = "pending" ∧
    (job_retry (handle_job_error jobDefault "boom" "failed" 5) "task-1"
      (.ok ())).completed_at = some 5 ∧
    ¬ statusTimestampInv (job_retry (handle_job_error jobDefault "boom" "failed" 5)
      "task-1" (.ok ())) := by
  refine ⟨rfl, rfl, rfl, ?_⟩
  intro h
  rcases h.mp rfl with h1 | h1 <;>
    simp [job_retry, handle_job_error, jobDefault] at h1

/-- C2: a transient (unclassified) error on every attempt gives exactly
`MAX_RETRIES + 1 = 3` processing attempts; each retry is scheduled with
countdown `2 ^ retries` while the job stays `processing` with a retrying
error message, and the last attempt turns the job terminally `failed`. -/
theorem transient_retry_bound (fsE : String → Bool) (input_path jobId docType : String)
    (isBnf : Bool) (inputSize : Nat) (m : String) (job : Job) (now : Nat)
    (beh : Nat → Except PyErr JP2ForgeResult) (hsz : inputSize ≠ 0)
    (hbeh : ∀ i, beh i = .error (.other m)) :
    (process_conversion_job fsE input_path true inputSize beh jobId isBnf docType
        now job).1.map Job.status = ["processing", "processing", "failed"] ∧
    (process_conversion_job fsE input_path true inputSize beh jobId isBnf docType
        now job).1.map Job.error_message =
      [some ("Processing failed, retrying: " ++ m),
       some ("Processing failed, retrying: " ++ m),
       some ("Processing failed after " ++ toString MAX_RETRIES ++ " attempts: " ++ m)] ∧
    (process_conversion_job fsE input_path true inputSize beh jobId isBnf docType
        now job).1.map Job.completed_at =
      [job.completed_at, job.completed_at, some now] ∧
    (process_conversion_job fsE input_path true inputSize beh jobId isBnf docType
        now job).2 = [2 ^ 0, 2 ^ 1] ∧
    (process_conversion_job fsE input_path true inputSize beh jobId isBnf docType
        now job).1.length = MAX_RETRIES + 1 ∧
    MAX_RETRIES + 1 = 3 := by
  refine ⟨?_, ?_, ?_, ?_, ?_, rfl⟩ <;>
    simp [process_conversion_job, MAX_RETRIES, runLoop, tryBody, handle_job_error,
      hbeh, hsz]

/-- Witness for C2 on a concrete persistently failing run. -/
theorem transient_retry_bound_witness :
    (process_conversion_job (fun _ => false) "in.tif" true 1
        (fun _ => .error (.other "boom")) "j1" false "color" 7 jobDefault).1.map
      Job.status = ["processing", "processing", "failed"] ∧
    (process_conversion_job (fun _ => false) "in.tif" true 1
        (fun _ => .error (.other "boom")) "j1" false "color" 7 jobDefault).1.map
      Job.error_message =
      [some ("Processing failed, retrying: " ++ "boom"),
       some ("Processing failed, retrying: " ++ "boom"),
       some ("Processing failed after " ++ toString MAX_RETRIES ++ " attempts: " ++ "boom")] ∧
    (process_conversion_job (fun _ => false) "in.tif" true 1
        (fun _ => .error (.other "boom")) "j1" false "color" 7 jobDefault).1.map
      Job.completed_at = [jobDefault.completed_at, jobDefault.completed_at, some 7] ∧
    (process_conversion_job (fun _ => false) "in.tif" true 1
        (fun _ => .error (.other "boom")) "j1" false "color" 7 jobDefault).2 =
      [2 ^ 0, 2 ^ 1] ∧
    (process_conversion_job (fun _ => false) "in.tif" true 1
        (fun _ => .error (.other "boom")) "j1" false "color" 7 jobDefault).1.length =
      MAX_RETRIES + 1 ∧
    MAX_RETRIES + 1 = 3 :=
  transient_retry_bound (fun _ => false) "in.tif" "j1" "color" false 1 "boom"
    jobDefault 7 (fun _ => .error (.other "boom")) (by decide) (fun _ => rfl)

/-- C5: a missing or empty input file yields exactly one processing attempt,
no scheduled retry, and a terminal `failed` job with the completion timestamp
and a descriptive error message. -/
theorem nonretryable_input_errors (fsE : String → Bool) (input_path jobId docType : String)
    (isBnf : Bool) (inputExists : Bool) (inputSize : Nat)
    (beh : Nat → Except PyErr JP2ForgeResult) (job : Job) (now : Nat)
    (h : inputExists = false ∨ inputSize = 0) :
    ∃ j, process_conversion_job fsE input_path inputExists inputSize beh jobId isBnf
        docType now job = ([j], []) ∧
      j.status = "failed" ∧ j.completed_at = some now ∧
      (j.error_message = some ("File not found: " ++ ("Input file not found: " ++ input_path)) ∨
       j.error_message = some "Invalid input: Input file is empty") := by
  cases hex : inputExists with
  | false =>
    refine ⟨handle_job_error { job with status := "processing", progress := 0 }
        ("File not found: " ++ ("Input file not found: " ++ input_path)) "failed" now,
      ?_, ?_, ?_, Or.inl ?_⟩ <;>
      simp [process_conversion_job, MAX_RETRIES, runLoop, tryBody, handle_job_error]
  | true =>
    have h0 : inputSize = 0 := by
      rcases h with h | h
      · rw [hex] at h
        cases h
      · exact h
    subst h0
    refine ⟨handle_job_error { job with status := "processing", progress := 0 }
        ("Invalid input: " ++ "Input file is empty") "failed" now,
      ?_, ?_, ?_, Or.inr ?_⟩ <;>
      simp [process_conversion_job, MAX_RETRIES, runLoop, tryBody, handle_job_error]

/-- Witness for C5 on a concrete missing-input run. -/
theorem nonretryable_input_errors_witness :
    ∃ j, process_conversion_job (fun _ => false) "gone.tif" false 5
        (fun _ => .error (.other "x")) "j2" false "color" 9 jobDefault = ([j], []) ∧
      j.status = "failed" ∧ j.completed_at = some 9 ∧
      (j.error_message = some ("File not found: " ++ ("Input file not found: " ++ "gone.tif")) ∨
       j.error_message = some "Invalid input: Input file is empty") :=
  nonretryable_input_errors (fun _ => false) "gone.tif" "j2" "color" false false 5
    (fun _ => .error (.other "x")) jobDefault 9 (Or.inl rfl)

theorem setk_isEmpty_false (d : List (String × PyVal)) (k : String) (v : PyVal) :
    (setk d k v).isEmpty = false := by
  cases hd : setk d k v with
  | nil => exact absurd hd (setk_ne_nil d k v)
  | cons a t => rfl

/-- Shapes of the optional special metrics entries under which the per-page
loop completes without raising: no `per_page_metrics` entry, and
`file_sizes`, `bnf_compliance` and `bnf_validation` (with its nested
`checks` and `compression_ratio`) absent or dictionaries. -/
def pageSafeMetrics (m : List (String × PyVal)) : Bool :=
  (lookup m "per_page_metrics").isNone &&
  (match lookup m "file_sizes" with
   | some (.dict _) => true
   | Option.none => true
   | some _ => false) &&
  (match lookup m "bnf_compliance" with
   | some (.dict _) => true
   | Option.none => true
   | some _ => false) &&
  (match lookup m "bnf_validation" with
   | some (.dict bv) =>
     (match lookup bv "checks" with
      | some (.dict cs) =>
        (match lookup cs "compression_ratio" with
         | some (.dict _) => true
         | Option.none => true
         | some _ => false)
      | Option.none => true
      | some _ => false)
   | Option.none => true
   | some _ => false)

theorem pageSafe_bnfMetricsUpdate (m : List (String × PyVal)) (isCompl : Bool)
    (ratioV target : Rat) (docType : String) (hsafe : pageSafeMetrics m = true) :
    pageSafeMetrics (bnfMetricsUpdate m isCompl ratioV target docType) = true := by
  simp only [pageSafeMetrics, Bool.and_eq_true] at hsafe
  obtain ⟨⟨⟨h1, h2⟩, h3⟩, h4⟩ := hsafe
  simp [bnfMetricsUpdate, lookup_setk]
  rcases hbv : lookup m "bnf_validation" with _ | bvv
  · simp [hbv, pageSafeMetrics, Bool.and_eq_true, lookup_setk, h1, h2, h3]
  · rw [hbv] at h4
    cases bvv with
    | str s => exact absurd h4 (by simp)
    | rat q => exact absurd h4 (by simp)
    | bool b => exact absurd h4 (by simp)
    | none => exact absurd h4 (by simp)
    | list xs => exact absurd h4 (by simp)
    | dict bv =>
      simp only [] at h4
      rcases hck : lookup bv "checks" with _ | ckv
      · simp [hbv, hck, pageSafeMetrics, Bool.and_eq_true, lookup_setk, h1, h2, h3]
      · rw [hck] at h4
        cases ckv with
        | str s => exact absurd h4 (by simp)
        | rat q => exact absurd h4 (by simp)
        | bool b => exact absurd h4 (by simp)
        | none => exact absurd h4 (by simp)
        | list xs => exact absurd h4 (by simp)
        | dict cs =>
          simp only [] at h4
          rcases hcr : lookup cs "compression_ratio" with _ | crv
          · simp [hbv, hck, hcr, pageSafeMetrics, Bool.and_eq_true, lookup_setk,
              h1, h2, h3]
          · rw [hcr] at h4
            cases crv with
            | str s => exact absurd h4 (by simp)
            | rat q => exact absurd h4 (by simp)
            | bool b => exact absurd h4 (by simp)
            | none => exact absurd h4 (by simp)
            | list xs => exact absurd h4 (by simp)
            | dict cd =>
              simp [hbv, hck, hcr, pageSafeMetrics, Bool.and_eq_true, lookup_setk,
                h1, h2, h3]

theorem bnfMetricsUpdate_ne_nil (m : List (String × PyVal)) (isCompl : Bool)
    (ratioV target : Rat) (docType : String) :
    (bnfMetricsUpdate m isCompl ratioV target docType).isEmpty = false := by
  simp only [bnfMetricsUpdate]
  repeat' split
  all_goals exact setk_isEmpty_false _ _ _

theorem applySizes_preserves (job : Job) (result : JP2ForgeResult) (isBnf : Bool)
    (docType : String) (j2 : Job) (r2 : JP2ForgeResult)
    (h : applySizes job result isBnf docType = .ok (j2, r2)) :
    r2.output_file = result.output_file ∧
    j2.output_filename = job.output_filename ∧
    (result.metrics.isEmpty = false → r2.metrics.isEmpty = false) ∧
    (pageSafeMetrics result.metrics = true → pageSafeMetrics r2.metrics = true) := by
  simp only [applySizes] at h
  split at h
  · cases h
    exact ⟨rfl, rfl, fun hh => hh, fun hh => hh⟩
  · split at h
    · cases h
    · split at h
      · split at h
        · cases h
        · cases h
          refine ⟨rfl, rfl, fun _ => ?_, fun hh => ?_⟩
          · exact bnfMetricsUpdate_ne_nil _ _ _ _ _
          · exact pageSafe_bnfMetricsUpdate _ _ _ _ _ hh
      · cases h
        exact ⟨rfl, rfl, fun hh => hh, fun hh => hh⟩

theorem synthPageTail_ok (m : List (String × PyVal)) (idx : Nat) (pfn : String)
    (pm0 : List (String × PyVal)) (hsafe : pageSafeMetrics m = true) :
    ∃ pm, synthPageTail m idx pfn pm0 = .ok pm := by
  simp only [pageSafeMetrics, Bool.and_eq_true] at hsafe
  obtain ⟨⟨⟨h1, h2⟩, h3⟩, h4⟩ := hsafe
  simp only [synthPageTail]
  rcases hbc : lookup m "bnf_compliance" with _ | bcv
  case none =>
    simp only [hbc]
    rcases hbv : lookup m "bnf_validation" with _ | bvv
    · simp only [hbv]
      exact ⟨_, rfl⟩
    · rw [hbv] at h4
      cases bvv with
      | str s => exact absurd h4 (by simp)
      | rat q => exact absurd h4 (by simp)
      | bool b => exact absurd h4 (by simp)
      | none => exact absurd h4 (by simp)
      | list xs => exact absurd h4 (by simp)
      | dict bv =>
        simp only [] at h4
        rcases hck : lookup bv "checks" with _ | ckv
        · simp only [hbv, hck]
          exact ⟨_, rfl⟩
        · rw [hck] at h4
          cases ckv with
          | str s => exact absurd h4 (by simp)
          | rat q => exact absurd h4 (by simp)
          | bool b => exact absurd h4 (by simp)
          | none => exact absurd h4 (by simp)
          | list xs => exact absurd h4 (by simp)
          | dict cs =>
            simp only [] at h4
            rcases hcr : lookup cs "compression_ratio" with _ | crv
            · simp only [hbv, hck, hcr]
              exact ⟨_, rfl⟩
            · rw [hcr] at h4
              cases crv with
              | str s => exact absurd h4 (by simp)
              | rat q => exact absurd h4 (by simp)
              | bool b => exact absurd h4 (by simp)
              | none => exact absurd h4 (by simp)
              | list xs => exact absurd h4 (by simp)
              | dict cd =>
                simp only [hbv, hck, hcr]
                exact ⟨_, rfl⟩
  case some =>
    rw [hbc] at h3
    cases bcv with
    | str s => exact absurd h3 (by simp)
    | rat q => exact absurd h3 (by simp)
    | bool b => exact absurd h3 (by simp)
    | none => exact absurd h3 (by simp)
    | list xs => exact absurd h3 (by simp)
    | dict d =>
      simp only [hbc]
      rcases hbv : lookup m "bnf_validation" with _ | bvv
      · simp only [hbv]
        exact ⟨_, rfl⟩
      · rw [hbv] at h4
        cases bvv with
        | str s => exact absurd h4 (by simp)
        | rat q => exact absurd h4 (by simp)
        | bool b => exact absurd h4 (by simp)
        | none => exact absurd h4 (by simp)
        | list xs => exact absurd h4 (by simp)
        | dict bv =>
          simp only [] at h4
          rcases hck : lookup bv "checks" with _ | ckv
          · simp only [hbv, hck]
            exact ⟨_, rfl⟩
          · rw [hck] at h4
            cases ckv with
            | str s => exact absurd h4 (by simp)
            | rat q => exact absurd h4 (by simp)
            | bool b => exact absurd h4 (by simp)
            | none => exact absurd h4 (by simp)
            | list xs => exact absurd h4 (by simp)
            | dict cs =>
              simp only [] at h4
              rcases hcr : lookup cs "compression_ratio" with _ | crv
              · simp only [hbv, hck, hcr]
                exact ⟨_, rfl⟩
              · rw [hcr] at h4
                cases crv with
                | str s => exact absurd h4 (by simp)
                | rat q => exact absurd h4 (by simp)
                | bool b => exact absurd h4 (by simp)
                | none => exact absurd h4 (by simp)
                | list xs => exact absurd h4 (by simp)
                | dict cd =>
                  simp only [hbv, hck, hcr]
                  exact ⟨_, rfl⟩

theorem synthPageMetrics_ok (m fs : List (String × PyVal)) (jr : Option Rat)
    (idx : Nat) (pfn : String) (hsafe : pageSafeMetrics m = true) :
    ∃ pm, synthPageMetrics m fs jr idx pfn = .ok pm := by
  have htail := fun pm0 => synthPageTail_ok m idx pfn pm0 hsafe
  simp only [pageSafeMetrics, Bool.and_eq_true] at hsafe
  obtain ⟨⟨⟨h1, h2⟩, h3⟩, h4⟩ := hsafe
  simp only [synthPageMetrics]
  rcases hfs : lookup m "file_sizes" with _ | fv
  case none =>
    simp only [hfs]
    by_cases hfse : fs.isEmpty <;> simp only [hfse, if_true, if_false] <;>
      exact htail _
  case some =>
    rw [hfs] at h2
    cases fv with
    | str s => exact absurd h2 (by simp)
    | rat q => exact absurd h2 (by simp)
    | bool b => exact absurd h2 (by simp)
    | none => exact absurd h2 (by simp)
    | list xs => exact absurd h2 (by simp)
    | dict d =>
      simp only [hfs]
      exact htail _

theorem buildPageEntries_ok (ps : List String) (m fs : List (String × PyVal))
    (jr : Option Rat) (hsafe : pageSafeMetrics m = true) :
    ∀ idx, ∃ entries, buildPageEntries ps m fs jr idx = .ok (ps.map basename, entries) ∧
      entries.length = ps.length := by
  have h1 : lookup m "per_page_metrics" = Option.none := by
    have hs := hsafe
    simp only [pageSafeMetrics, Bool.and_eq_true] at hs
    exact Option.isNone_iff_eq_none.mp hs.1.1.1
  induction ps with
  | nil => exact fun idx => ⟨[], rfl, rfl⟩
  | cons p rest ih =>
    intro idx
    obtain ⟨pm, hpm⟩ := synthPageMetrics_ok m fs jr idx (basename p) hsafe
    obtain ⟨es, hes, hlen⟩ := ih (idx + 1)
    refine ⟨PyVal.dict
        [("page", .rat (idx + 1)), ("status", .str "SUCCESS"),
         ("output_file", .str p), ("metrics", .dict pm)] :: es, ?_, ?_⟩
    · simp only [buildPageEntries, h1, hpm, hes, Except.map, List.map]
    · simp [hlen]

theorem applyMetrics_output_filename (job : Job) (result : JP2ForgeResult) :
    (applyMetrics job result).output_filename = job.output_filename := by
  simp only [applyMetrics]
  repeat' split
  all_goals rfl

/-- C8 counterexample: a successful three-page adapter result with empty
metrics completes with the right output filename, but the job metrics stay
empty — no `pages` entry is recorded, so the claim fails as stated for
results without metrics. -/
theorem multipage_pages_absent_without_metrics :
    ∃ j, updateJobOnSuccess jobDefault "J"
        { output_file := .pages ["d/a.jp2", "d/b.jp2", "d/c.jp2"], file_sizes := [],
          metrics := [], success := true, error := Option.none } false "color" 11 =
        .ok j ∧
      j.output_filename = some "a.jp2" ∧ j.metrics = [] ∧
      lookup j.metrics "pages" = Option.none :=
  ⟨_, rfl, rfl, rfl, rfl⟩

/-- C8 (amended): for a successful adapter result carrying a list of 3 output
paths and nonempty, well-shaped metrics, the completed job's output filename
is the basename of the first path, and the job metrics record `pages = 3`
and a 3-element `page_files` list. -/
theorem multipage_normalization (job : Job) (jobId docType : String) (isBnf : Bool)
    (now : Nat) (result : JP2ForgeResult) (a b c : String) (j : Job)
    (hout : result.output_file = .pages [a, b, c])
    (hm : result.metrics.isEmpty = false)
    (hsafe : pageSafeMetrics result.metrics = true)
    (hok : updateJobOnSuccess job jobId result isBnf docType now = .ok j) :
    j.output_filename = some (basename a) ∧
    lookup j.metrics "pages" = some (.rat 3) ∧
    ∃ pf, lookup j.metrics "page_files" = some (.list pf) ∧ pf.length = 3 := by
  simp only [updateJobOnSuccess, hout] at hok
  split at hok
  · simp at hok
  · rename_i j2 r2 heq
    obtain ⟨hro, hofn, hme, hps⟩ := applySizes_preserves _ _ _ _ _ _ heq
    have hro2 : r2.output_file = .pages [a, b, c] := hro.trans hout
    have hme2 : r2.metrics.isEmpty = false := hme hm
    have hsafe2 : pageSafeMetrics r2.metrics = true := hps hsafe
    obtain ⟨entries, hbp, hlen⟩ :=
      buildPageEntries_ok [a, b, c] r2.metrics r2.file_sizes j2.compressionRatioCol
        hsafe2 0
    have hmetrics : (applyMetrics j2 r2).metrics =
        setk (setk (setk (ensure_json_serializable r2.metrics) "pages"
          (.rat ([a, b, c] : List String).length)) "page_files"
          (.list (([a, b, c].map basename).map PyVal.str))) "multipage_results"
          (.list entries) := by
      simp only [applyMetrics, hme2, hro2, hbp, Bool.not_false, if_true]
    injection hok with hj
    rw [← hj]
    refine ⟨?_, ?_, ?_⟩
    · show (applyMetrics j2 r2).output_filename = some (basename a)
      rw [applyMetrics_output_filename, hofn]
    · show lookup (applyMetrics j2 r2).metrics "pages" = some (.rat 3)
      rw [hmetrics, lookup_setk_ne _ _ _ _ (by decide), lookup_setk_ne _ _ _ _ (by decide),
        lookup_setk_self]
      norm_num
    · show ∃ pf, lookup (applyMetrics j2 r2).metrics "page_files" = some (.list pf) ∧
        pf.length = 3
      rw [hmetrics, lookup_setk_ne _ _ _ _ (by decide), lookup_setk_self]
      exact ⟨_, rfl, by simp⟩

/-- Witness for C8 on a concrete three-page result with quality metrics. -/
theorem multipage_normalization_witness :
    ∃ j, updateJobOnSuccess jobDefault "J"
        { output_file := .pages ["d/a.jp2", "d/b.jp2", "d/c.jp2"], file_sizes := [],
          metrics := [("psnr", .rat 40)], success := true, error := Option.none }
        false "color" 3 = .ok j ∧
      (j.output_filename = some (basename "d/a.jp2") ∧
       lookup j.metrics "pages" = some (.rat 3) ∧
       ∃ pf, lookup j.metrics "page_files" = some (.list pf) ∧ pf.length = 3) :=
  ⟨_, rfl, multipage_normalization jobDefault "J" "color" false 3
    { output_file := .pages ["d/a.jp2", "d/b.jp2", "d/c.jp2"], file_sizes := [],
      metrics := [("psnr", .rat 40)], success := true, error := Option.none }
    "d/a.jp2" "d/b.jp2" "d/c.jp2" _ rfl rfl rfl rfl⟩
